import Mathlib

/-!
The `pass-to-xsk-or-drop` XDP program of xdp-rs.

A shallow embedding of `examples/pass-to-xsk-or-drop/src/kernel.c`.

The program consists of one map declaration (`xsks_map`) and one entry point
(`xdp_try_pass_to_xsk`).  The entry point calls two kernel helpers,
`bpf_map_lookup_elem` and `bpf_redirect_map`, which are declared by
`<bpf/bpf_helpers.h>` and implemented by the kernel, not by this repository;
they are embedded here after their documented contract for a
`BPF_MAP_TYPE_XSKMAP` map.

Machine integers are natural numbers / integers with explicit reduction
modulo `2 ^ w`.
-/

namespace XdpRs

/-! ## Constants of `<linux/bpf.h>` used by the program -/

/-- The `XDP_ABORTED` member of `enum xdp_action`. -/
def XDP_ABORTED : Int := 0

/-- The `XDP_DROP` member of `enum xdp_action`. -/
def XDP_DROP : Int := 1

/-- The `XDP_PASS` member of `enum xdp_action`. -/
def XDP_PASS : Int := 2

/-- The `XDP_TX` member of `enum xdp_action`. -/
def XDP_TX : Int := 3

/-- The `XDP_REDIRECT` member of `enum xdp_action`. -/
def XDP_REDIRECT : Int := 4

/-- The `BPF_MAP_TYPE_UNSPEC` member of `enum bpf_map_type`. -/
def BPF_MAP_TYPE_UNSPEC : Nat := 0

/-- The `BPF_MAP_TYPE_XSKMAP` member of `enum bpf_map_type`. -/
def BPF_MAP_TYPE_XSKMAP : Nat := 17

/-- The packet context `struct xdp_md` of `<linux/bpf.h>`: six `__u32` fields. -/
structure xdp_md where
  data : Nat
  data_meta : Nat
  data_end : Nat
  ingress_ifindex : Nat
  rx_queue_index : Nat
  egress_ifindex : Nat

/-! ## The map `xsks_map` -/

/-- The declared capacity: `__uint(max_entries, 64)`. -/
abbrev max_entries : Nat := 64

/-- A registered AF_XDP socket, as stored in a slot of the map
(`__type(value, __u32)`). -/
abbrev SocketHandle := Nat

/-- The contents of `xsks_map`: a `BPF_MAP_TYPE_XSKMAP` is an array of
`max_entries` slots indexed by the `__u32` key, each slot either empty or
holding one socket. -/
abbrev XskMap := Fin max_entries → Option SocketHandle

/-- The map created at load time: every slot empty. -/
def XskMap.empty : XskMap := fun _ => none

/-- Number of occupied slots of the map. -/
def XskMap.entries (m : XskMap) : Nat :=
  ((List.finRange max_entries).filter (fun i => (m i).isSome)).length

/-- Outcome of a control-plane insert. -/
inductive InsertResult where
  | Ok
  | CapacityExceeded
  deriving DecidableEq

/-- Modelled from the spec: the control-plane operation
`insert(queue_index, socket_handle)` of the table contract, which lives in the
userspace part of the repository and is absent from the kernel program.  An
insert into a slot of the table stores the handle (replacing an older one); an
insert for which the table has no room fails with `CapacityExceeded` and
changes nothing.  The table is the `max_entries`-slot map declared in
`kernel.c`, so the keys it has room for are those below `max_entries`. -/
def XskMap.insert (m : XskMap) (q : Nat) (s : SocketHandle) : InsertResult × XskMap :=
  if q < max_entries then
    (InsertResult.Ok, fun i => if i.val = q then some s else m i)
  else
    (InsertResult.CapacityExceeded, m)

/-- Modelled from the spec: the control-plane operation `remove(queue_index)`
of the table contract, absent from the kernel program: the association of the
key, if any, is dropped and every other slot is kept. -/
def XskMap.remove (m : XskMap) (q : Nat) : XskMap :=
  fun i => if i.val = q then none else m i

/-! ## Kernel state seen by the program -/

/-- The per-CPU redirect record (`struct bpf_redirect_info`) that
`bpf_redirect_map` fills in and the driver consumes after the program
returned `XDP_REDIRECT`. -/
structure bpf_redirect_info where
  tgt_index : Nat
  tgt_value : Option SocketHandle
  map_type : Nat

/-- The state the program runs in: the global map and the redirect record. -/
structure State where
  xsks_map : XskMap
  ri : bpf_redirect_info

/-! ## C integer conversions used by `xdp_try_pass_to_xsk` -/

/-- Conversion of a `__u32` value to `int` (32-bit two's complement), as in
`int index = ctx->rx_queue_index;`. -/
def int_of_u32 (v : Nat) : Int :=
  if v % 2 ^ 32 < 2 ^ 31 then ((v % 2 ^ 32 : Nat) : Int)
  else ((v % 2 ^ 32 : Nat) : Int) - ((2 ^ 32 : Nat) : Int)

/-- The `__u32` read through a pointer to an `int` object, as the map does with
the key pointer `&index`. -/
def u32_of_int (i : Int) : Nat := (i % ((2 ^ 32 : Nat) : Int)).toNat

/-- Conversion of an `int` argument to the `__u64` parameter `key` of
`bpf_redirect_map` (sign extension, then reduction modulo `2 ^ 64`). -/
def u64_of_int (i : Int) : Nat := (i % ((2 ^ 64 : Nat) : Int)).toNat

/-! ## Kernel helpers -/

/-- Kernel helper `bpf_map_lookup_elem(&xsks_map, &key)` for an XSKMAP: the
slot at `key` when `key < max_entries` and the slot is occupied, `NULL`
(`none`) otherwise.  It never indexes outside the array. -/
def bpf_map_lookup_elem (m : XskMap) (key : Nat) : Option SocketHandle :=
  if h : key < max_entries then m ⟨key, h⟩ else none

/-- Kernel helper `bpf_redirect_map(&xsks_map, key, flags)` for an XSKMAP.
Flags outside the two low (action) bits make it return `XDP_ABORTED`.
Otherwise the key, truncated to `__u32`, is looked up in the map: on a miss the
redirect record is cleared and the low bits of `flags` are returned; on a hit
the record receives the socket and the index and `XDP_REDIRECT` is returned. -/
def bpf_redirect_map (st : State) (key : Nat) (flags : Nat) : Int × State :=
  let action_mask : Nat := 3
  if flags &&& (0xFFFFFFFFFFFFFFFF ^^^ action_mask) ≠ 0 then
    (XDP_ABORTED, st)
  else
    match bpf_map_lookup_elem st.xsks_map (key % 2 ^ 32) with
    | none =>
      (((flags &&& action_mask : Nat) : Int),
        { st with ri := { st.ri with tgt_value := none, map_type := BPF_MAP_TYPE_UNSPEC } })
    | some xs =>
      (XDP_REDIRECT,
        { st with ri := { tgt_index := key % 2 ^ 32, tgt_value := some xs,
                          map_type := BPF_MAP_TYPE_XSKMAP } })

/-! ## The program -/

/-- The XDP entry point of `kernel.c`:
```
int index = ctx->rx_queue_index;
if (bpf_map_lookup_elem(&xsks_map, &index)) {
  return bpf_redirect_map(&xsks_map, index, 0);
}
return XDP_DROP;
```
It returns the verdict together with the state it leaves behind. -/
def xdp_try_pass_to_xsk (st : State) (ctx : xdp_md) : Int × State :=
  let index : Int := int_of_u32 ctx.rx_queue_index
  if (bpf_map_lookup_elem st.xsks_map (u32_of_int index)).isSome then
    bpf_redirect_map st (u64_of_int index) 0
  else
    (XDP_DROP, st)

/-! ## Concrete states used in examples -/

/-- A cleared redirect record. -/
def ri0 : bpf_redirect_info :=
  { tgt_index := 0, tgt_value := none, map_type := BPF_MAP_TYPE_UNSPEC }

/-- The table `{3: socket_A}` with `socket_A = 7`. -/
def table3 : XskMap := fun i => if i.val = 3 then some 7 else none

/-- The table `{3: socket_B}` with `socket_B = 8`: same keys as `table3`,
another socket. -/
def table3b : XskMap := fun i => if i.val = 3 then some 8 else none

/-- A table with every slot occupied: slot `i` holds socket `100 + i`. -/
def tableFull : XskMap := fun i => some (100 + i.val)

/-- A packet context arriving on queue `q`, all other fields zero. -/
def pkt (q : Nat) : xdp_md :=
  { data := 0, data_meta := 0, data_end := 0, ingress_ifindex := 0,
    rx_queue_index := q, egress_ifindex := 0 }


/-! ## Auxiliary lemmas -/

theorem u32_of_int_int_of_u32 (v : Nat) : u32_of_int (int_of_u32 v) = v % 2 ^ 32 := by
  unfold u32_of_int int_of_u32
  split_ifs <;> omega

theorem u64_of_int_int_of_u32 (v : Nat) (h : v % 2 ^ 32 < 2 ^ 31) :
    u64_of_int (int_of_u32 v) = v % 2 ^ 32 := by
  unfold u64_of_int int_of_u32
  rw [if_pos h]
  omega

/-- Sign extension to 64 bits keeps the low 32 bits of the key. -/
theorem u64_of_int_low32 (v : Nat) : u64_of_int (int_of_u32 v) % 2 ^ 32 = v % 2 ^ 32 := by
  unfold u64_of_int int_of_u32
  split_ifs <;> omega

theorem lookup_isSome_lt (m : XskMap) (k : Nat)
    (h : (bpf_map_lookup_elem m k).isSome = true) : k < max_entries := by
  unfold bpf_map_lookup_elem at h
  split_ifs at h with hk
  · exact hk
  · simp at h

theorem lookup_out_of_range (m : XskMap) (k : Nat) (h : max_entries ≤ k) :
    bpf_map_lookup_elem m k = none := by
  unfold bpf_map_lookup_elem
  split_ifs with hk
  · omega
  · rfl

/-- On a miss with `flags = 0` the helper returns the low bits of `flags`,
which is `XDP_ABORTED`. -/
theorem bpf_redirect_map_miss (st : State) (key : Nat)
    (h : bpf_map_lookup_elem st.xsks_map (key % 2 ^ 32) = none) :
    (bpf_redirect_map st key 0).1 = XDP_ABORTED := by
  simp only [Nat.reducePow] at h
  simp [bpf_redirect_map, h, XDP_ABORTED]

theorem bpf_redirect_map_hit (st : State) (key : Nat) (xs : SocketHandle)
    (h : bpf_map_lookup_elem st.xsks_map (key % 2 ^ 32) = some xs) :
    bpf_redirect_map st key 0 =
      (XDP_REDIRECT,
        { st with ri := { tgt_index := key % 2 ^ 32, tgt_value := some xs,
                          map_type := BPF_MAP_TYPE_XSKMAP } }) := by
  simp only [Nat.reducePow] at h
  simp [bpf_redirect_map, h]

/-- The program on a queue whose (32-bit) index has an occupied slot. -/
theorem xdp_hit (st : State) (ctx : xdp_md) (xs : SocketHandle)
    (h : bpf_map_lookup_elem st.xsks_map (ctx.rx_queue_index % 2 ^ 32) = some xs) :
    xdp_try_pass_to_xsk st ctx =
      (XDP_REDIRECT,
        { st with ri := { tgt_index := ctx.rx_queue_index % 2 ^ 32, tgt_value := some xs,
                          map_type := BPF_MAP_TYPE_XSKMAP } }) := by
  have hlt : ctx.rx_queue_index % 2 ^ 32 < max_entries :=
    lookup_isSome_lt st.xsks_map _ (by rw [h]; rfl)
  have h64 : u64_of_int (int_of_u32 ctx.rx_queue_index) = ctx.rx_queue_index % 2 ^ 32 :=
    u64_of_int_int_of_u32 _ (by unfold max_entries at hlt; omega)
  unfold xdp_try_pass_to_xsk
  simp only [u32_of_int_int_of_u32, h, Option.isSome_some, if_true, h64]
  rw [bpf_redirect_map_hit st _ xs (by rw [Nat.mod_mod]; exact h), Nat.mod_mod]

/-- The program on a queue whose (32-bit) index has no occupied slot. -/
theorem xdp_miss (st : State) (ctx : xdp_md)
    (h : bpf_map_lookup_elem st.xsks_map (ctx.rx_queue_index % 2 ^ 32) = none) :
    xdp_try_pass_to_xsk st ctx = (XDP_DROP, st) := by
  unfold xdp_try_pass_to_xsk
  simp only [u32_of_int_int_of_u32, h]
  rfl

theorem lookup_insert_self (m : XskMap) (q : Nat) (s : SocketHandle) (hq : q < max_entries) :
    bpf_map_lookup_elem (XskMap.insert m q s).2 q = some s := by
  unfold bpf_map_lookup_elem XskMap.insert
  rw [dif_pos hq, if_pos hq]
  simp

theorem lookup_remove_self (m : XskMap) (q : Nat) :
    bpf_map_lookup_elem (XskMap.remove m q) q = none := by
  unfold bpf_map_lookup_elem XskMap.remove
  by_cases hq : q < max_entries
  · rw [dif_pos hq]; simp
  · rw [dif_neg hq]

theorem entries_le (m : XskMap) : XskMap.entries m ≤ max_entries := by
  unfold XskMap.entries
  calc ((List.finRange max_entries).filter (fun i => (m i).isSome)).length
      ≤ (List.finRange max_entries).length := List.length_filter_le _ _
    _ = max_entries := List.length_finRange _

theorem full_all_occupied (m : XskMap) (h : XskMap.entries m = max_entries) (i : Fin max_entries) :
    (m i).isSome = true := by
  unfold XskMap.entries at h
  have hlen : ((List.finRange max_entries).filter (fun i => (m i).isSome)).length
      = (List.finRange max_entries).length := by
    rw [h, List.length_finRange]
  have hall := List.filter_length_eq_length.mp hlen
  exact hall i (List.mem_finRange i)

/-! ## The claims -/

/-- C1: for every state and every packet whose `rx_queue_index` has an entry
in the table, `xdp_try_pass_to_xsk` hands that same index as key to
`bpf_redirect_map`, returns `XDP_REDIRECT`, and the redirect record it leaves
names that index and the socket stored for it. -/
theorem C1_present_queue_redirects_to_itself (st : State) (ctx : xdp_md)
    (h : (bpf_map_lookup_elem st.xsks_map ctx.rx_queue_index).isSome = true) :
    u64_of_int (int_of_u32 ctx.rx_queue_index) = ctx.rx_queue_index ∧
    xdp_try_pass_to_xsk st ctx = bpf_redirect_map st ctx.rx_queue_index 0 ∧
    (xdp_try_pass_to_xsk st ctx).1 = XDP_REDIRECT ∧
    (xdp_try_pass_to_xsk st ctx).2.ri.tgt_index = ctx.rx_queue_index ∧
    (xdp_try_pass_to_xsk st ctx).2.ri.tgt_value
      = bpf_map_lookup_elem st.xsks_map ctx.rx_queue_index := by
  have hlt : ctx.rx_queue_index < max_entries := lookup_isSome_lt _ _ h
  have hmod : ctx.rx_queue_index % 2 ^ 32 = ctx.rx_queue_index :=
    Nat.mod_eq_of_lt (by unfold max_entries at hlt; omega)
  obtain ⟨xs, hxs⟩ := Option.isSome_iff_exists.mp h
  have hxs' : bpf_map_lookup_elem st.xsks_map (ctx.rx_queue_index % 2 ^ 32) = some xs := by
    rw [hmod]; exact hxs
  have hkey : u64_of_int (int_of_u32 ctx.rx_queue_index) = ctx.rx_queue_index := by
    rw [u64_of_int_int_of_u32 _ (by rw [hmod]; unfold max_entries at hlt; omega), hmod]
  refine ⟨hkey, ?_, ?_, ?_, ?_⟩
  · rw [xdp_hit st ctx xs hxs', bpf_redirect_map_hit st _ xs hxs']
  · rw [xdp_hit st ctx xs hxs']
  · rw [xdp_hit st ctx xs hxs']; exact hmod
  · rw [xdp_hit st ctx xs hxs', hxs]

/-- Witness for C1: table `{3: socket_A}`, packet on queue 3 gives `REDIRECT(3)`. -/
theorem C1_witness :
    u64_of_int (int_of_u32 (pkt 3).rx_queue_index) = (pkt 3).rx_queue_index ∧
    xdp_try_pass_to_xsk ⟨table3, ri0⟩ (pkt 3)
      = bpf_redirect_map ⟨table3, ri0⟩ (pkt 3).rx_queue_index 0 ∧
    (xdp_try_pass_to_xsk ⟨table3, ri0⟩ (pkt 3)).1 = XDP_REDIRECT ∧
    (xdp_try_pass_to_xsk ⟨table3, ri0⟩ (pkt 3)).2.ri.tgt_index = (pkt 3).rx_queue_index ∧
    (xdp_try_pass_to_xsk ⟨table3, ri0⟩ (pkt 3)).2.ri.tgt_value
      = bpf_map_lookup_elem table3 (pkt 3).rx_queue_index :=
  C1_present_queue_redirects_to_itself ⟨table3, ri0⟩ (pkt 3) (by decide)

/-- C2: for every state and every packet whose 32-bit `rx_queue_index` has no
entry in the table, `xdp_try_pass_to_xsk` returns `XDP_DROP` (and leaves the
state as it was). -/
theorem C2_absent_queue_is_dropped (st : State) (ctx : xdp_md)
    (h32 : ctx.rx_queue_index < 2 ^ 32)
    (h : bpf_map_lookup_elem st.xsks_map ctx.rx_queue_index = none) :
    (xdp_try_pass_to_xsk st ctx).1 = XDP_DROP ∧ xdp_try_pass_to_xsk st ctx = (XDP_DROP, st) := by
  have hm : xdp_try_pass_to_xsk st ctx = (XDP_DROP, st) :=
    xdp_miss st ctx (by rw [Nat.mod_eq_of_lt h32]; exact h)
  exact ⟨by rw [hm], hm⟩

/-- Witness for C2: table `{3: socket_A}`, packet on queue 5 gives `DROP`. -/
theorem C2_witness :
    (xdp_try_pass_to_xsk ⟨table3, ri0⟩ (pkt 5)).1 = XDP_DROP ∧
    xdp_try_pass_to_xsk ⟨table3, ri0⟩ (pkt 5) = (XDP_DROP, ⟨table3, ri0⟩) :=
  C2_absent_queue_is_dropped ⟨table3, ri0⟩ (pkt 5) (by decide) (by decide)

/-- C3 (evaluation of the code at the failing input): with table
`{3: socket_A}` a packet on the unregistered queue 5 gets `XDP_DROP`, which is
not `XDP_PASS`; the doc comment of `xdp_try_pass_to_xsk` promises the latter. -/
theorem C3_unregistered_queue_not_passed :
    bpf_map_lookup_elem table3 (pkt 5).rx_queue_index = none ∧
    (xdp_try_pass_to_xsk ⟨table3, ri0⟩ (pkt 5)).1 = XDP_DROP ∧
    (xdp_try_pass_to_xsk ⟨table3, ri0⟩ (pkt 5)).1 ≠ XDP_PASS := by
  decide

/-- C4: for every state and every packet the value returned by
`xdp_try_pass_to_xsk` is `XDP_REDIRECT` or `XDP_DROP`, never `XDP_PASS`,
`XDP_TX` or `XDP_ABORTED`; it is `XDP_REDIRECT` exactly when the lookup of the
packet's queue succeeded, so the miss branch of `bpf_redirect_map` is not
reached. -/
theorem C4_verdict_is_redirect_or_drop (st : State) (ctx : xdp_md) :
    ((xdp_try_pass_to_xsk st ctx).1 = XDP_REDIRECT ∨ (xdp_try_pass_to_xsk st ctx).1 = XDP_DROP) ∧
    (xdp_try_pass_to_xsk st ctx).1 ≠ XDP_PASS ∧
    (xdp_try_pass_to_xsk st ctx).1 ≠ XDP_TX ∧
    (xdp_try_pass_to_xsk st ctx).1 ≠ XDP_ABORTED ∧
    ((xdp_try_pass_to_xsk st ctx).1 = XDP_REDIRECT ↔
      (bpf_map_lookup_elem st.xsks_map (u32_of_int (int_of_u32 ctx.rx_queue_index))).isSome
        = true) ∧
    ((xdp_try_pass_to_xsk st ctx).1 = XDP_REDIRECT ↔
      (bpf_map_lookup_elem st.xsks_map
        (u64_of_int (int_of_u32 ctx.rx_queue_index) % 2 ^ 32)).isSome = true) := by
  rw [u32_of_int_int_of_u32, u64_of_int_low32]
  cases hl : bpf_map_lookup_elem st.xsks_map (ctx.rx_queue_index % 2 ^ 32) with
  | none =>
    rw [xdp_miss st ctx hl]
    simp [XDP_DROP, XDP_REDIRECT, XDP_PASS, XDP_TX, XDP_ABORTED]
  | some xs =>
    rw [xdp_hit st ctx xs hl]
    simp [XDP_DROP, XDP_REDIRECT, XDP_PASS, XDP_TX, XDP_ABORTED]

/-- C5: for every state and every 32-bit `rx_queue_index` outside the table's
range (`64` and above, among them the values from `2 ^ 31` on, for which the
signed `index` is negative) the lookup is a miss, not an out-of-bounds access,
and `xdp_try_pass_to_xsk` returns `XDP_DROP`. -/
theorem C5_out_of_range_queue_is_dropped (st : State) (ctx : xdp_md)
    (h64 : max_entries ≤ ctx.rx_queue_index) (h32 : ctx.rx_queue_index < 2 ^ 32) :
    (int_of_u32 ctx.rx_queue_index < 0 ↔ 2 ^ 31 ≤ ctx.rx_queue_index) ∧
    bpf_map_lookup_elem st.xsks_map (u32_of_int (int_of_u32 ctx.rx_queue_index)) = none ∧
    (xdp_try_pass_to_xsk st ctx).1 = XDP_DROP ∧
    xdp_try_pass_to_xsk st ctx = (XDP_DROP, st) := by
  have hmod : ctx.rx_queue_index % 2 ^ 32 = ctx.rx_queue_index := Nat.mod_eq_of_lt h32
  have hnone : bpf_map_lookup_elem st.xsks_map (ctx.rx_queue_index % 2 ^ 32) = none := by
    rw [hmod]; exact lookup_out_of_range _ _ h64
  have hm := xdp_miss st ctx hnone
  refine ⟨?_, ?_, by rw [hm], hm⟩
  · unfold int_of_u32
    split_ifs <;> omega
  · rw [u32_of_int_int_of_u32]; exact hnone

/-- Witness for C5: queue index `2 ^ 32 - 1`, stored as `index = -1`, on the
fully occupied table. -/
theorem C5_witness :
    (int_of_u32 (pkt 4294967295).rx_queue_index < 0 ↔ 2 ^ 31 ≤ (pkt 4294967295).rx_queue_index) ∧
    bpf_map_lookup_elem (State.mk tableFull ri0).xsks_map
      (u32_of_int (int_of_u32 (pkt 4294967295).rx_queue_index)) = none ∧
    (xdp_try_pass_to_xsk ⟨tableFull, ri0⟩ (pkt 4294967295)).1 = XDP_DROP ∧
    xdp_try_pass_to_xsk ⟨tableFull, ri0⟩ (pkt 4294967295) = (XDP_DROP, ⟨tableFull, ri0⟩) :=
  C5_out_of_range_queue_is_dropped ⟨tableFull, ri0⟩ (pkt 4294967295) (by decide) (by decide)

/-- C6: for every state, every queue index `q` within the capacity and every
socket handle `s`: `insert(q, s)` succeeds and on the table it leaves
`xdp_try_pass_to_xsk` for a packet from queue `q` returns `XDP_REDIRECT` with
target `q` (and socket `s`); on the table left by `remove(q)` it returns
`XDP_DROP`, also when the removal follows the insert. -/
theorem C6_insert_then_redirect_remove_then_drop (st : State) (ctx : xdp_md) (s : SocketHandle)
    (hq : ctx.rx_queue_index < max_entries) :
    (XskMap.insert st.xsks_map ctx.rx_queue_index s).1 = InsertResult.Ok ∧
    (xdp_try_pass_to_xsk
      { st with xsks_map := (XskMap.insert st.xsks_map ctx.rx_queue_index s).2 } ctx).1
        = XDP_REDIRECT ∧
    (xdp_try_pass_to_xsk
      { st with xsks_map := (XskMap.insert st.xsks_map ctx.rx_queue_index s).2 } ctx).2.ri.tgt_index
        = ctx.rx_queue_index ∧
    (xdp_try_pass_to_xsk
      { st with xsks_map := (XskMap.insert st.xsks_map ctx.rx_queue_index s).2 } ctx).2.ri.tgt_value
        = some s ∧
    (xdp_try_pass_to_xsk
      { st with xsks_map := XskMap.remove st.xsks_map ctx.rx_queue_index } ctx).1 = XDP_DROP ∧
    (xdp_try_pass_to_xsk
      { st with xsks_map :=
          XskMap.remove (XskMap.insert st.xsks_map ctx.rx_queue_index s).2 ctx.rx_queue_index }
      ctx).1 = XDP_DROP := by
  have hmod : ctx.rx_queue_index % 2 ^ 32 = ctx.rx_queue_index :=
    Nat.mod_eq_of_lt (by unfold max_entries at hq; omega)
  have hins : bpf_map_lookup_elem
      (State.mk (XskMap.insert st.xsks_map ctx.rx_queue_index s).2 st.ri).xsks_map
      (ctx.rx_queue_index % 2 ^ 32) = some s := by
    rw [hmod]; exact lookup_insert_self _ _ _ hq
  have hrem : ∀ m : XskMap, bpf_map_lookup_elem
      (State.mk (XskMap.remove m ctx.rx_queue_index) st.ri).xsks_map
      (ctx.rx_queue_index % 2 ^ 32) = none := by
    intro m; rw [hmod]; exact lookup_remove_self _ _
  refine ⟨?_, ?_, ?_, ?_, ?_, ?_⟩
  · unfold XskMap.insert; rw [if_pos hq]
  · rw [xdp_hit _ ctx s hins]
  · rw [xdp_hit _ ctx s hins]; exact hmod
  · rw [xdp_hit _ ctx s hins]
  · rw [xdp_miss _ ctx (hrem _)]
  · rw [xdp_miss _ ctx (hrem _)]

/-- Witness for C6: queue 5 and socket 9 on the table `{3: socket_A}`. -/
theorem C6_witness :
    (XskMap.insert table3 5 9).1 = InsertResult.Ok ∧
    (xdp_try_pass_to_xsk ⟨(XskMap.insert table3 5 9).2, ri0⟩ (pkt 5)).1 = XDP_REDIRECT ∧
    (xdp_try_pass_to_xsk ⟨(XskMap.insert table3 5 9).2, ri0⟩ (pkt 5)).2.ri.tgt_index = 5 ∧
    (xdp_try_pass_to_xsk ⟨(XskMap.insert table3 5 9).2, ri0⟩ (pkt 5)).2.ri.tgt_value = some 9 ∧
    (xdp_try_pass_to_xsk ⟨XskMap.remove table3 5, ri0⟩ (pkt 5)).1 = XDP_DROP ∧
    (xdp_try_pass_to_xsk ⟨XskMap.remove (XskMap.insert table3 5 9).2 5, ri0⟩ (pkt 5)).1
      = XDP_DROP :=
  C6_insert_then_redirect_remove_then_drop ⟨table3, ri0⟩ (pkt 5) 9 (by decide)

/-- C7: `xdp_try_pass_to_xsk` leaves the contents of `xsks_map` exactly as
they were, and a second packet from the same queue, classified on the state
the first call left, gets the same verdict (indeed the same verdict and the
same resulting state). -/
theorem C7_map_unchanged_and_verdict_repeats (st : State) (ctx ctx2 : xdp_md)
    (hsame : ctx2.rx_queue_index = ctx.rx_queue_index) :
    (xdp_try_pass_to_xsk st ctx).2.xsks_map = st.xsks_map ∧
    (xdp_try_pass_to_xsk (xdp_try_pass_to_xsk st ctx).2 ctx2).1 = (xdp_try_pass_to_xsk st ctx).1 ∧
    xdp_try_pass_to_xsk (xdp_try_pass_to_xsk st ctx).2 ctx2 = xdp_try_pass_to_xsk st ctx := by
  cases hl : bpf_map_lookup_elem st.xsks_map (ctx.rx_queue_index % 2 ^ 32) with
  | none =>
    have h1 := xdp_miss st ctx hl
    have h2 := xdp_miss st ctx2 (by rw [hsame]; exact hl)
    rw [h1]
    exact ⟨rfl, by rw [h2], h2⟩
  | some xs =>
    have h1 := xdp_hit st ctx xs hl
    rw [h1]
    have h2 := xdp_hit
      { st with ri := { tgt_index := ctx.rx_queue_index % 2 ^ 32, tgt_value := some xs,
                        map_type := BPF_MAP_TYPE_XSKMAP } } ctx2 xs (by rw [hsame]; exact hl)
    rw [hsame] at h2
    exact ⟨rfl, by rw [h2], h2⟩

/-- Witness for C7: two packets from queue 3 (differing in `data_end`) on the
table `{3: socket_A}`. -/
theorem C7_witness :
    (xdp_try_pass_to_xsk ⟨table3, ri0⟩ (pkt 3)).2.xsks_map = (State.mk table3 ri0).xsks_map ∧
    (xdp_try_pass_to_xsk (xdp_try_pass_to_xsk ⟨table3, ri0⟩ (pkt 3)).2
        { pkt 3 with data_end := 60 }).1
      = (xdp_try_pass_to_xsk ⟨table3, ri0⟩ (pkt 3)).1 ∧
    xdp_try_pass_to_xsk (xdp_try_pass_to_xsk ⟨table3, ri0⟩ (pkt 3)).2
        { pkt 3 with data_end := 60 }
      = xdp_try_pass_to_xsk ⟨table3, ri0⟩ (pkt 3) :=
  C7_map_unchanged_and_verdict_repeats ⟨table3, ri0⟩ (pkt 3) { pkt 3 with data_end := 60 } rfl

/-- C8: the verdict depends only on `rx_queue_index` and on which keys are
present: two packets with the same `rx_queue_index` (any other field
arbitrary) on two states whose tables have the same present keys (stored
sockets and redirect records arbitrary) get the same return value, and when
that value is `XDP_REDIRECT` the same redirect target index. -/
theorem C8_verdict_depends_on_queue_and_keys_only (st1 st2 : State) (ctx1 ctx2 : xdp_md)
    (hq : ctx1.rx_queue_index = ctx2.rx_queue_index)
    (hk : ∀ k : Nat, (bpf_map_lookup_elem st1.xsks_map k).isSome
                      = (bpf_map_lookup_elem st2.xsks_map k).isSome) :
    (xdp_try_pass_to_xsk st1 ctx1).1 = (xdp_try_pass_to_xsk st2 ctx2).1 ∧
    ((xdp_try_pass_to_xsk st1 ctx1).1 = XDP_REDIRECT →
      (xdp_try_pass_to_xsk st1 ctx1).2.ri.tgt_index
        = (xdp_try_pass_to_xsk st2 ctx2).2.ri.tgt_index) := by
  have hk' := hk (ctx1.rx_queue_index % 2 ^ 32)
  cases hl1 : bpf_map_lookup_elem st1.xsks_map (ctx1.rx_queue_index % 2 ^ 32) with
  | none =>
    cases hl2 : bpf_map_lookup_elem st2.xsks_map (ctx1.rx_queue_index % 2 ^ 32) with
    | none =>
      rw [xdp_miss st1 ctx1 hl1, xdp_miss st2 ctx2 (by rw [← hq]; exact hl2)]
      simp [XDP_DROP, XDP_REDIRECT]
    | some x2 => rw [hl1, hl2] at hk'; simp at hk'
  | some x1 =>
    cases hl2 : bpf_map_lookup_elem st2.xsks_map (ctx1.rx_queue_index % 2 ^ 32) with
    | none => rw [hl1, hl2] at hk'; simp at hk'
    | some x2 =>
      rw [xdp_hit st1 ctx1 x1 hl1, xdp_hit st2 ctx2 x2 (by rw [← hq]; exact hl2), hq]
      simp

/-- Witness for C8: queue 3 on `{3: socket_A}` and on `{3: socket_B}`, the
packets differing in `data` and `ingress_ifindex`, the states in their
redirect record. -/
theorem C8_witness :
    (xdp_try_pass_to_xsk ⟨table3, ri0⟩ (pkt 3)).1
      = (xdp_try_pass_to_xsk ⟨table3b, ⟨9, some 1, BPF_MAP_TYPE_XSKMAP⟩⟩
          { pkt 3 with data := 64, ingress_ifindex := 2 }).1 ∧
    (xdp_try_pass_to_xsk ⟨table3, ri0⟩ (pkt 3)).2.ri.tgt_index
      = (xdp_try_pass_to_xsk ⟨table3b, ⟨9, some 1, BPF_MAP_TYPE_XSKMAP⟩⟩
          { pkt 3 with data := 64, ingress_ifindex := 2 }).2.ri.tgt_index :=
  have h := C8_verdict_depends_on_queue_and_keys_only ⟨table3, ri0⟩
    ⟨table3b, ⟨9, some 1, BPF_MAP_TYPE_XSKMAP⟩⟩ (pkt 3)
    { pkt 3 with data := 64, ingress_ifindex := 2 } rfl
    (by
      intro k
      unfold bpf_map_lookup_elem table3 table3b
      by_cases hlt : k < max_entries
      · by_cases h3 : k = 3
        · subst h3; rfl
        · simp [hlt, h3]
      · simp [hlt])
  ⟨h.1, h.2 (by decide)⟩

/-- C9: the table has capacity `max_entries = 64`: no table holds more than 64
entries, and on a table holding 64 entries an insert of a further, distinct
key fails with `CapacityExceeded` and leaves the table, hence each of the 64
keys and socket handles, as it was. -/
theorem C9_insert_into_full_table_fails (m : XskMap) (q : Nat) (s : SocketHandle)
    (hfull : XskMap.entries m = 64)
    (hnew : bpf_map_lookup_elem m q = none) :
    max_entries = 64 ∧
    (∀ m2 : XskMap, XskMap.entries m2 ≤ 64) ∧
    (XskMap.insert m q s).1 = InsertResult.CapacityExceeded ∧
    (XskMap.insert m q s).2 = m ∧
    (∀ k : Nat, bpf_map_lookup_elem (XskMap.insert m q s).2 k = bpf_map_lookup_elem m k) := by
  have hge : ¬ q < max_entries := by
    intro hlt
    have hs := full_all_occupied m hfull ⟨q, hlt⟩
    unfold bpf_map_lookup_elem at hnew
    rw [dif_pos hlt] at hnew
    rw [hnew] at hs
    simp at hs
  have hins : XskMap.insert m q s = (InsertResult.CapacityExceeded, m) := by
    unfold XskMap.insert; rw [if_neg hge]
  refine ⟨rfl, entries_le, by rw [hins], by rw [hins], ?_⟩
  intro k; rw [hins]

/-- Witness for C9: key 64 inserted into the fully occupied table. -/
theorem C9_witness :
    max_entries = 64 ∧
    (∀ m2 : XskMap, XskMap.entries m2 ≤ 64) ∧
    (XskMap.insert tableFull 64 9).1 = InsertResult.CapacityExceeded ∧
    (XskMap.insert tableFull 64 9).2 = tableFull ∧
    (∀ k : Nat, bpf_map_lookup_elem (XskMap.insert tableFull 64 9).2 k
      = bpf_map_lookup_elem tableFull k) :=
  C9_insert_into_full_table_fails tableFull 64 9 (by decide) (by decide)

/-- C10: for every unsigned 32-bit `rx_queue_index` `v`, the `__u32` key the
map reads from the signed `index` is `v` again (it is `v mod 2 ^ 32`), and
whenever the lookup of that key succeeds on some table, `v < 64` and the
64-bit key obtained by widening `index` for `bpf_redirect_map` is `v`. -/
theorem C10_signed_index_keeps_key (v : Nat) (hv : v < 2 ^ 32) :
    u32_of_int (int_of_u32 v) = v ∧
    u32_of_int (int_of_u32 v) = v % 2 ^ 32 ∧
    (∀ m : XskMap, (bpf_map_lookup_elem m (u32_of_int (int_of_u32 v))).isSome = true →
      v < max_entries ∧ u64_of_int (int_of_u32 v) = v) := by
  have hmod : v % 2 ^ 32 = v := Nat.mod_eq_of_lt hv
  refine ⟨by rw [u32_of_int_int_of_u32, hmod], u32_of_int_int_of_u32 v, ?_⟩
  intro m hs
  rw [u32_of_int_int_of_u32, hmod] at hs
  have hlt := lookup_isSome_lt m v hs
  refine ⟨hlt, ?_⟩
  rw [u64_of_int_int_of_u32 v (by rw [hmod]; unfold max_entries at hlt; omega), hmod]

/-- Witness for C10: `v = 3` with the table `{3: socket_A}`. -/
theorem C10_witness :
    u32_of_int (int_of_u32 3) = 3 ∧
    u32_of_int (int_of_u32 3) = 3 % 2 ^ 32 ∧
    (3 < max_entries ∧ u64_of_int (int_of_u32 3) = 3) :=
  have h := C10_signed_index_keeps_key 3 (by decide)
  ⟨h.1, h.2.1, h.2.2 table3 (by decide)⟩

end XdpRs
